import Mathlib

/-!
Verification development for the STS fetcher
(`source/extensions/filters/http/aws_lambda/sts_fetcher.cc`).

The fetcher issues a single signed HTTP request to an STS endpoint and
reports exactly one outcome to its caller.  We embed the fetcher's state,
its `fetch`/`cancel` entry points and its two transport-completion
handlers (`onSuccess`, `onFailure`) as pure Lean functions, with the
transport send and the caller-callback invocations reified as event
lists, and prove the specified properties about them.
-/

namespace StsFetcher

/-- The caller-visible failure taxonomy (`CredentialsFailureStatus`). -/
inductive CredentialsFailureStatus where
  | ClusterNotFound
  | Network
  | ExpiredToken
deriving DecidableEq, Repr

/-- One invocation of the caller-supplied callback set
(`callbacks_->onSuccess(body)` / `callbacks_->onFailure(status)`). -/
inductive CallbackEvent where
  | success (body : String)
  | failure (status : CredentialsFailureStatus)
deriving DecidableEq, Repr

/-- The endpoint descriptor (`envoy::config::core::v3::HttpUri`): address,
cluster reference, timeout. -/
structure HttpUri where
  uri : String
  cluster : String
  timeoutMs : Nat
deriving DecidableEq, Repr

/-- Existing temporary credentials for the chained form
(`StsCredentialsConstSharedPtr`).  Each field is an `absl::optional`
in the source, on which the fetch path calls `.value()`. -/
structure StsCredentials where
  accessKeyId : Option String
  secretAccessKey : Option String
  sessionToken : Option String
deriving DecidableEq, Repr

/-- An outbound HTTP request message (`Http::RequestMessagePtr`):
method and content-type set by `fetch`, the remaining headers
(host/path from `prepareHeaders`, plus any signing headers), and
the body. -/
structure RequestMessage where
  method : String
  contentType : String
  headers : List (String × String)
  body : String
deriving DecidableEq, Repr

/-- `cm_.getThreadLocalCluster(name)`: the cluster manager resolves the
cluster name against the configured clusters; `none` models the
`nullptr` return for an unconfigured cluster. -/
def getThreadLocalCluster (configured : List String) (name : String) : Option String :=
  if configured.contains name then some name else none

/-- Modelled from the spec: `Http::Utility::prepareHeaders(uri)` is Envoy
core (outside this repository); per the outbound wire contract it
populates host and path headers from the endpoint descriptor and
nothing else — in particular no signing headers. -/
def prepareHeaders (uri : HttpUri) : List (String × String) :=
  [("host", uri.uri), (":path", uri.uri)]

/-- `body.find(needle) != std::string::npos`: the needle occurs as a
contiguous substring of the haystack. -/
def containsSubstr (hay needle : String) : Bool :=
  decide (needle.data <:+: hay.data)

/-- Result of classifying a transport response: the raw body on success,
a `CredentialsFailureStatus` otherwise. -/
inductive ClassifyResult where
  | success (body : String)
  | failure (status : CredentialsFailureStatus)
deriving DecidableEq, Repr

/-- `status_code == enumToInt(Http::Code::OK)`: the only status the code
treats as success is 200. -/
def inSuccessRange (status : Nat) : Bool :=
  status == 200

/-- `(status_code >= 400) && (status_code <= 403)`: the provider
client-error band, bad request through forbidden inclusive. -/
def inClientErrorBand (status : Nat) : Bool :=
  400 ≤ status && status ≤ 403

/-- The response classifier: the branch structure of
`StsFetcherImpl::onSuccess` (sts_fetcher.cc lines 117-166) on the
status code and response body.  `marker` is the `ExpiredTokenError`
constant (declared in sts_fetcher.h, whose value is outside src/);
the classification is stated for an arbitrary marker. -/
def classify (marker : String) (status : Nat) (body : String) : ClassifyResult :=
  if inSuccessRange status then
    if body.length > 0 then
      .success body
    else
      .failure .Network
  else
    if inClientErrorBand status && body.length > 0 then
      if containsSubstr body marker then
        .failure .ExpiredToken
      else
        .failure .Network
    else
      .failure .Network

/-- The fetcher's member state: `complete_`, `callbacks_` (caller callback
pointer, `none` = `nullptr`), `uri_`, `request_` (transport request
handle), `role_arn_`.  A field of type `Option Unit` records only
whether the corresponding pointer is null. -/
structure FetcherState where
  complete : Bool
  callbacks : Option Unit
  uri : Option HttpUri
  request : Option Unit
  role_arn : String
deriving DecidableEq, Repr

/-- `StsFetcherImpl::reset()`: null out `request_`, `callbacks_`, `uri_`
(and nothing else). -/
def reset (st : FetcherState) : FetcherState :=
  { st with request := none, callbacks := none, uri := none }

/-- The state of a freshly constructed fetcher: all members
default-initialized (`complete_{}`, null pointers, empty role). -/
def initState : FetcherState :=
  { complete := false, callbacks := none, uri := none, request := none,
    role_arn := "" }

/-- Modelled from the spec: `StsFormatString` (declared in sts_fetcher.h,
outside src/) — the fixed web-identity body template substituting the
role ARN, the millisecond timestamp, and the web token, per the
outbound wire contract (`Action=AssumeRoleWithWebIdentity`,
`RoleSessionName` from the timestamp, `WebIdentityToken`). -/
def StsFormatString (role_arn : String) (now : Nat) (web_token : String) : String :=
  "Action=AssumeRoleWithWebIdentity&Version=2011-06-15&RoleArn=" ++ role_arn ++
  "&RoleSessionName=" ++ toString now ++ "&WebIdentityToken=" ++ web_token

/-- Modelled from the spec: `StsChainedFormatString` (declared in
sts_fetcher.h, outside src/) — the chained body template substituting
the role ARN and the millisecond timestamp only (no token field). -/
def StsChainedFormatString (role_arn : String) (now : Nat) : String :=
  "Action=AssumeRole&Version=2011-06-15&RoleArn=" ++ role_arn ++
  "&RoleSessionName=" ++ toString now

/-- `AWSStsHeaderValues::Service`: the hardcoded service identifier. -/
def Service : String := "sts"

/-- `AWSStsHeaderValues::DateHeader`: the request-date header name. -/
def DateHeader : String := "x-amz-date"

/-- `StsFetcherImpl::HeadersToSign`: the canonical header set —
content-type, the request-date header, host. -/
def HeadersToSign : List String :=
  ["content-type", DateHeader, "host"]

/-- `StsFetcherImpl::DefaultRegion`. -/
def DefaultRegion : String := "us-east-1"

/-- Modelled from the spec: `AwsAuthenticator` (aws_authenticator.cc is
outside src/) — a stateful per-request signer holding the credential
material, the service name, and the running payload digest. -/
structure AwsAuthenticator where
  accessKey : String
  secretKey : String
  sessionToken : String
  service : String
  payloadHash : String
deriving DecidableEq, Repr

/-- Modelled from the spec: `AwsAuthenticator::init` resets the signer
state from the three credential fields. -/
def AwsAuthenticator.init (accessKey secretKey sessionToken service : String) :
    AwsAuthenticator :=
  { accessKey := accessKey, secretKey := secretKey,
    sessionToken := sessionToken, service := service, payloadHash := "" }

/-- Modelled from the spec: `AwsAuthenticator::updatePayloadHash` folds
the body into the running digest (the digest itself is opaque here;
we record the folded input, which keeps signing deterministic in the
inputs). -/
def AwsAuthenticator.updatePayloadHash (a : AwsAuthenticator) (body : String) :
    AwsAuthenticator :=
  { a with payloadHash := a.payloadHash ++ body }

/-- Modelled from the spec: the authorization header value computed by
`AwsAuthenticator::sign` — a SigV4-style credential-scope string,
deterministic in the signer state, the headers to sign, the region
and the timestamp.  Its exact bytes are outside src/; what matters
for the claims is that it is non-empty and deterministic. -/
def authorizationValue (a : AwsAuthenticator) (headersToSign : List String)
    (region : String) (now : Nat) : String :=
  "AWS4-HMAC-SHA256 Credential=" ++ a.accessKey ++ "/" ++ toString now ++ "/" ++
  region ++ "/" ++ a.service ++ "/aws4_request, SignedHeaders=" ++
  String.intercalate ";" headersToSign ++ ", Signature=" ++ a.payloadHash

/-- Modelled from the spec: `AwsAuthenticator::sign(headers,
headers_to_sign, region)` computes the canonical request and mutates
the header set, adding the request-date header and the authorization
header. -/
def sign (a : AwsAuthenticator) (hdrs : List (String × String))
    (headersToSign : List String) (region : String) (now : Nat) :
    List (String × String) :=
  hdrs ++ [(DateHeader, toString now),
           ("authorization", authorizationValue a headersToSign region now)]

/-- Outcome of one call to `StsFetcherImpl::fetch`:
* `asserted` — `ASSERT(callbacks_ == nullptr)` fired (debug builds);
* `credsFieldMissing` — `.value()` on an empty `absl::optional`
  credential field threw before signing/sending;
* `done events sends st signRegions` — normal return: the caller
  callbacks invoked during the call, the messages handed to the
  transport (`httpAsyncClient().send`), the fetcher state at return,
  and the region argument of each `AwsAuthenticator::sign` call. -/
inductive FetchResult where
  | asserted
  | credsFieldMissing
  | done (events : List CallbackEvent) (sends : List RequestMessage)
         (st : FetcherState) (signRegions : List String)
deriving DecidableEq, Repr

/-- `StsFetcherImpl::fetch` (sts_fetcher.cc lines 36-111).
`debugBuild` selects whether `ASSERT` is compiled in; `configured` is
the cluster manager's configured cluster set; `now` the millisecond
timestamp read from the time source. -/
def fetch (debugBuild : Bool) (configured : List String) (now : Nat)
    (st : FetcherState) (uri : HttpUri) (role_arn web_token : String)
    (creds : Option StsCredentials) : FetchResult :=
  if debugBuild && st.callbacks.isSome then
    .asserted
  else
    let st1 : FetcherState :=
      { st with complete := false, callbacks := some (), uri := some uri,
                role_arn := role_arn }
    if (getThreadLocalCluster configured uri.cluster).isNone then
      .done [.failure .ClusterNotFound] [] (reset { st1 with complete := true }) []
    else
      let baseMsg : RequestMessage :=
        { method := "POST", contentType := "application/x-www-form-urlencoded",
          headers := prepareHeaders uri, body := "" }
      match creds with
      | none =>
        let msg := { baseMsg with body := StsFormatString role_arn now web_token }
        .done [] [msg] { st1 with request := some () } []
      | some c =>
        let body := StsChainedFormatString role_arn now
        match c.accessKeyId, c.secretAccessKey, c.sessionToken with
        | some ak, some sk, some tok =>
          let auth := (AwsAuthenticator.init ak sk tok Service).updatePayloadHash body
          let signedHeaders := sign auth baseMsg.headers HeadersToSign DefaultRegion now
          let msg := { baseMsg with body := body, headers := signedHeaders }
          .done [] [msg] { st1 with request := some () } [DefaultRegion]
        | _, _, _ => .credsFieldMissing

/-- `StsFetcherImpl::cancel` (sts_fetcher.cc lines 27-34): if a request
is active and not yet complete, cancel it at the transport; then
`reset()` regardless.  Returns the new state and whether a
transport-level cancel was issued. -/
def cancel (st : FetcherState) : FetcherState × Bool :=
  if st.request.isSome && !st.complete then
    (reset st, true)
  else
    (reset st, false)

/-- Outcome of a transport completion delivered to the fetcher:
`nullCallbackDeref` models the `callbacks_->...` call on a null
pointer (a crash, not a no-op); `delivered` carries the caller
callbacks invoked and the state after the handler returns. -/
inductive CompletionOutcome where
  | nullCallbackDeref
  | delivered (events : List CallbackEvent) (st : FetcherState)
deriving DecidableEq, Repr

/-- `StsFetcherImpl::onSuccess` (sts_fetcher.cc lines 114-168): set
`complete_`, classify the response, invoke the caller callback on the
result, `reset()`.  The handler dereferences `callbacks_`
unconditionally — it performs no null check and does not consult
`complete_`. -/
def onSuccessH (marker : String) (st : FetcherState) (status : Nat)
    (body : String) : CompletionOutcome :=
  let st1 := { st with complete := true }
  match st1.callbacks with
  | none => .nullCallbackDeref
  | some _ =>
    match classify marker status body with
    | .success b => .delivered [.success b] (reset st1)
    | .failure f => .delivered [.failure f] (reset st1)

/-- `StsFetcherImpl::onFailure` (sts_fetcher.cc lines 170-177): set
`complete_`, report `Network`, `reset()`.  Like `onSuccess` it
dereferences `callbacks_` unconditionally. -/
def onFailureH (st : FetcherState) : CompletionOutcome :=
  let st1 := { st with complete := true }
  match st1.callbacks with
  | none => .nullCallbackDeref
  | some _ => .delivered [.failure .Network] (reset st1)

/-- The transport's single completion for an accepted request. -/
inductive Completion where
  | transportSuccess (status : Nat) (body : String)
  | transportFailure
deriving DecidableEq, Repr

/-- Deliver a transport completion to the fetcher. -/
def deliver (marker : String) (st : FetcherState) : Completion → CompletionOutcome
  | .transportSuccess status body => onSuccessH marker st status body
  | .transportFailure => onFailureH st

/-- One full fetch interaction from a fresh fetcher: run `fetch`; if it
handed a request to the transport, deliver the transport's single
completion (the transport guarantees exactly one completion per
accepted request).  Returns the caller callbacks invoked over the
whole interaction and the number of transport sends, or `none` if
the run aborted (assert / thrown `bad_optional_access` / null
callback dereference). -/
def runFetch (marker : String) (debugBuild : Bool) (configured : List String)
    (now : Nat) (uri : HttpUri) (role_arn web_token : String)
    (creds : Option StsCredentials) (comp : Completion) :
    Option (List CallbackEvent × Nat) :=
  match fetch debugBuild configured now initState uri role_arn web_token creds with
  | .asserted => none
  | .credsFieldMissing => none
  | .done evs sends st _ =>
    if sends.isEmpty then
      some (evs, sends.length)
    else
      match deliver marker st comp with
      | .nullCallbackDeref => none
      | .delivered evs2 _ => some (evs ++ evs2, sends.length)

/-- `creds == nullptr ||` all three `absl::optional` credential fields are
engaged — the precondition under which the chained path's `.value()`
calls do not throw. -/
def credsWellFormed : Option StsCredentials → Bool
  | none => true
  | some c =>
    c.accessKeyId.isSome && c.secretAccessKey.isSome && c.sessionToken.isSome

/-- The caller callbacks a `fetch` call invoked before returning. -/
def eventsOf : FetchResult → List CallbackEvent
  | .done evs _ _ _ => evs
  | _ => []

/-- The messages a `fetch` call handed to the transport. -/
def sentMessages : FetchResult → List RequestMessage
  | .done _ sends _ _ => sends
  | _ => []

/-- The region argument of each `AwsAuthenticator::sign` call a `fetch`
call performed. -/
def signRegionsOf : FetchResult → List String
  | .done _ _ _ regs => regs
  | _ => []

/-- Whether the message carries a header with the given name. -/
def hasHeader (msg : RequestMessage) (name : String) : Bool :=
  msg.headers.any (fun h => h.1 == name)

/-- The value of the first header with the given name, if any. -/
def headerValue (msg : RequestMessage) (name : String) : Option String :=
  (msg.headers.find? (fun h => h.1 == name)).map Prod.snd

/-- A concrete endpoint descriptor used in witnesses. -/
def uriExample : HttpUri :=
  { uri := "https://sts.amazonaws.com", cluster := "stscluster", timeoutMs := 5000 }

/-- A concrete fetcher state with a request in flight (as left by a
`fetch` that handed a request to the transport): request handle and
callback pointer set, not yet complete. -/
def inFlightExample : FetcherState :=
  { complete := false, callbacks := some (), uri := some uriExample,
    request := some (), role_arn := "arn:aws:iam::123:role/x" }

/-- A concrete idle fetcher state (no active request). -/
def idleExample : FetcherState :=
  { complete := true, callbacks := none, uri := none, request := none,
    role_arn := "arn:aws:iam::123:role/x" }

/-- A concrete fully-populated chained-credentials value. -/
def credsExample : StsCredentials :=
  { accessKeyId := some "AKIAEXAMPLE", secretAccessKey := some "secret",
    sessionToken := some "session" }

/-- The message the web-identity path hands to the transport: POST,
form-urlencoded, unsigned headers, web-identity body. -/
def webMessage (uri : HttpUri) (role_arn : String) (now : Nat)
    (web_token : String) : RequestMessage :=
  { method := "POST", contentType := "application/x-www-form-urlencoded",
    headers := prepareHeaders uri, body := StsFormatString role_arn now web_token }

/-- The message the chained path hands to the transport: POST,
form-urlencoded, signed headers, chained body. -/
def chainedMessage (uri : HttpUri) (role_arn : String) (now : Nat)
    (ak sk tok : String) : RequestMessage :=
  let body := StsChainedFormatString role_arn now
  let auth := (AwsAuthenticator.init ak sk tok Service).updatePayloadHash body
  { method := "POST", contentType := "application/x-www-form-urlencoded",
    headers := sign auth (prepareHeaders uri) HeadersToSign DefaultRegion now,
    body := body }

/-- The fetcher state at the return of a `fetch` that handed a request
to the transport. -/
def inFlightState (uri : HttpUri) (role_arn : String) : FetcherState :=
  { complete := false, callbacks := some (), uri := some uri,
    request := some (), role_arn := role_arn }

/-- The fetcher state at the return of a ClusterNotFound fast-fail. -/
def fastFailState (role_arn : String) : FetcherState :=
  { complete := true, callbacks := none, uri := none, request := none,
    role_arn := role_arn }

/-! ## Theorems -/

/-- On an unresolvable cluster, `fetch` fast-fails: one synchronous
`ClusterNotFound` callback, no send, no sign call, state reset. -/
theorem fetch_eq_of_cluster_missing (debugBuild : Bool) (configured : List String)
    (now : Nat) (st : FetcherState) (uri : HttpUri) (role_arn web_token : String)
    (creds : Option StsCredentials)
    (hdb : (debugBuild && st.callbacks.isSome) = false)
    (hm : uri.cluster ∉ configured) :
    fetch debugBuild configured now st uri role_arn web_token creds =
      .done [.failure .ClusterNotFound] [] (fastFailState role_arn) [] := by
  unfold fetch
  rw [if_neg (by simp [hdb])]
  rw [if_pos (by simp [getThreadLocalCluster, hm])]
  simp [reset, fastFailState]

/-- On a resolvable cluster with no existing credentials, `fetch` sends
the web-identity message, invokes no callback, and leaves the fetcher
in flight. -/
theorem fetch_eq_web (debugBuild : Bool) (configured : List String)
    (now : Nat) (st : FetcherState) (uri : HttpUri) (role_arn web_token : String)
    (hdb : (debugBuild && st.callbacks.isSome) = false)
    (hm : uri.cluster ∈ configured) :
    fetch debugBuild configured now st uri role_arn web_token none =
      .done [] [webMessage uri role_arn now web_token]
        (inFlightState uri role_arn) [] := by
  unfold fetch
  rw [if_neg (by simp [hdb])]
  rw [if_neg (by simp [getThreadLocalCluster, hm])]
  simp [webMessage, inFlightState]

/-- On a resolvable cluster with fully populated chained credentials,
`fetch` sends the signed chained message, invokes no callback, signs
with the default region, and leaves the fetcher in flight. -/
theorem fetch_eq_chained (debugBuild : Bool) (configured : List String)
    (now : Nat) (st : FetcherState) (uri : HttpUri) (role_arn web_token : String)
    (ak sk tok : String)
    (hdb : (debugBuild && st.callbacks.isSome) = false)
    (hm : uri.cluster ∈ configured) :
    fetch debugBuild configured now st uri role_arn web_token
        (some { accessKeyId := some ak, secretAccessKey := some sk,
                sessionToken := some tok }) =
      .done [] [chainedMessage uri role_arn now ak sk tok]
        (inFlightState uri role_arn) [DefaultRegion] := by
  unfold fetch
  rw [if_neg (by simp [hdb])]
  rw [if_neg (by simp [getThreadLocalCluster, hm])]
  simp [chainedMessage, inFlightState]

/-- A transport completion delivered to an in-flight fetcher invokes
exactly one caller callback and resets the state. -/
theorem deliver_one_event (marker : String) (st : FetcherState) (comp : Completion)
    (hcb : st.callbacks = some ()) :
    ∃ ev, deliver marker st comp =
      .delivered [ev] (reset { st with complete := true }) := by
  cases comp with
  | transportSuccess status body =>
    show ∃ ev, onSuccessH marker st status body = _
    unfold onSuccessH
    simp only [hcb]
    cases classify marker status body with
    | success b => exact ⟨.success b, rfl⟩
    | failure f => exact ⟨.failure f, rfl⟩
  | transportFailure =>
    show ∃ ev, onFailureH st = _
    unfold onFailureH
    simp only [hcb]
    exact ⟨.failure .Network, rfl⟩

/-- C1: over a full fetch interaction (the `fetch` call plus, when it
handed a request to the transport, the transport's single completion),
exactly one caller callback fires — never zero, never two — and at
most one transport send occurs; on the ClusterNotFound fast-fail path
the failure callback fires exactly once with zero sends. -/
theorem runFetch_exactly_one_callback (marker : String) (debugBuild : Bool)
    (configured : List String) (now : Nat) (uri : HttpUri)
    (role_arn web_token : String) (creds : Option StsCredentials)
    (comp : Completion) (hwf : credsWellFormed creds = true) :
    ∃ evs n, runFetch marker debugBuild configured now uri role_arn web_token creds comp
        = some (evs, n) ∧ evs.length = 1 ∧ n ≤ 1 ∧
      (uri.cluster ∉ configured →
        evs = [.failure .ClusterNotFound] ∧ n = 0) := by
  have hdb : (debugBuild && initState.callbacks.isSome) = false := by
    simp [initState]
  by_cases hm : uri.cluster ∈ configured
  · have hcb : (inFlightState uri role_arn).callbacks = some () := rfl
    obtain ⟨ev, hev⟩ := deliver_one_event marker (inFlightState uri role_arn) comp hcb
    cases creds with
    | none =>
      refine ⟨[ev], 1, ?_, by simp, by omega, fun h => absurd hm h⟩
      unfold runFetch
      rw [fetch_eq_web debugBuild configured now initState uri role_arn web_token hdb hm]
      simp [hev]
    | some c =>
      obtain ⟨a, s, t⟩ := c
      cases a with
      | none => simp [credsWellFormed] at hwf
      | some ak =>
      cases s with
      | none => simp [credsWellFormed] at hwf
      | some sk =>
      cases t with
      | none => simp [credsWellFormed] at hwf
      | some tok =>
      refine ⟨[ev], 1, ?_, by simp, by omega, fun h => absurd hm h⟩
      unfold runFetch
      rw [fetch_eq_chained debugBuild configured now initState uri role_arn web_token
            ak sk tok hdb hm]
      simp [hev]
  · refine ⟨[.failure .ClusterNotFound], 0, ?_, by simp, by omega, fun _ => ⟨rfl, rfl⟩⟩
    unfold runFetch
    rw [fetch_eq_of_cluster_missing debugBuild configured now initState uri role_arn
          web_token creds hdb hm]
    simp

/-- Witness for C1: a web-identity fetch on a configured cluster with a
200 completion yields exactly one callback and one send; the same
fetch on an unconfigured cluster yields the `ClusterNotFound` callback
and zero sends. -/
theorem runFetch_exactly_one_callback_witness :
    (∃ evs n, runFetch "m" false ["stscluster"] 7 uriExample "arn" "tok" none
        (.transportSuccess 200 "ok") = some (evs, n) ∧ evs.length = 1 ∧ n ≤ 1 ∧
      (uriExample.cluster ∉ ["stscluster"] →
        evs = [.failure .ClusterNotFound] ∧ n = 0)) ∧
    (∃ evs n, runFetch "m" false [] 7 uriExample "arn" "tok" none
        (.transportSuccess 200 "ok") = some (evs, n) ∧ evs.length = 1 ∧ n ≤ 1 ∧
      (uriExample.cluster ∉ ([] : List String) →
        evs = [.failure .ClusterNotFound] ∧ n = 0)) :=
  ⟨runFetch_exactly_one_callback "m" false ["stscluster"] 7 uriExample "arn" "tok"
      none (.transportSuccess 200 "ok") (by decide),
   runFetch_exactly_one_callback "m" false [] 7 uriExample "arn" "tok"
      none (.transportSuccess 200 "ok") (by decide)⟩

/-- C2: for every response whose status lies in the provider-client-error
band (400 through 403 inclusive) and whose body is non-empty, the
classifier reports `ExpiredToken` if the body contains the provider
token-expiry marker substring anywhere, and otherwise `Network`. -/
theorem classify_client_error_band (marker : String) (status : Nat) (body : String)
    (h1 : 400 ≤ status) (h2 : status ≤ 403) (hb : 0 < body.length) :
    classify marker status body =
      (if containsSubstr body marker then
         ClassifyResult.failure .ExpiredToken
       else
         ClassifyResult.failure .Network) := by
  have hne : status ≠ 200 := by omega
  have hs : inSuccessRange status = false := by
    simp [inSuccessRange, hne]
  have hband : inClientErrorBand status = true := by
    simp [inClientErrorBand, h1, h2]
  simp [classify, hs, hband, hb]

/-- Witness for C2: a 403 whose body contains the marker classifies as
`ExpiredToken`; a 400 whose body lacks it classifies as `Network`. -/
theorem classify_client_error_band_witness :
    classify "ExpiredToken" 403 "a ExpiredToken b" = .failure .ExpiredToken ∧
    classify "ExpiredToken" 400 "AccessDenied" = .failure .Network := by
  constructor
  · rw [classify_client_error_band "ExpiredToken" 403 "a ExpiredToken b"
        (by decide) (by decide) (by decide)]
    decide
  · rw [classify_client_error_band "ExpiredToken" 400 "AccessDenied"
        (by decide) (by decide) (by decide)]
    decide

/-- C3: for every response with a success-range status and a non-empty
body, the classifier reports success carrying the body verbatim, and
the completion handler forwards exactly that body to the caller. -/
theorem classify_success_verbatim (marker : String) (status : Nat) (body : String)
    (st : FetcherState) (hs : inSuccessRange status = true) (hb : 0 < body.length)
    (hcb : st.callbacks = some ()) :
    classify marker status body = .success body ∧
    onSuccessH marker st status body =
      .delivered [.success body] (reset { st with complete := true }) := by
  have hc : classify marker status body = .success body := by
    simp [classify, hs, hb]
  refine ⟨hc, ?_⟩
  simp [onSuccessH, hcb, hc]

/-- Witness for C3: a 200 with body `"creds-xml"` is forwarded verbatim. -/
theorem classify_success_verbatim_witness :
    onSuccessH "m" inFlightExample 200 "creds-xml" =
      .delivered [.success "creds-xml"] (reset { inFlightExample with complete := true }) :=
  (classify_success_verbatim "m" 200 "creds-xml" inFlightExample
    (by decide) (by decide) (by decide)).2

/-- C4: success-range status with empty body, status outside both the
success range and the 400–403 band, and 400–403 status with empty
body all classify as `Network`; a transport-level failure callback is
reported to the caller as `Network`. -/
theorem classify_network_fallback (marker : String) (status : Nat) (body : String)
    (st : FetcherState) :
    (inSuccessRange status = true → body.length = 0 →
      classify marker status body = .failure .Network) ∧
    (inSuccessRange status = false → inClientErrorBand status = false →
      classify marker status body = .failure .Network) ∧
    (inClientErrorBand status = true → body.length = 0 →
      classify marker status body = .failure .Network) ∧
    (st.callbacks = some () →
      onFailureH st = .delivered [.failure .Network] (reset { st with complete := true })) := by
  refine ⟨?_, ?_, ?_, ?_⟩
  · intro hs hb
    simp [classify, hs, hb]
  · intro hs hband
    simp [classify, hs, hband]
  · intro hband hb
    simp only [inClientErrorBand, Bool.and_eq_true, decide_eq_true_eq] at hband
    have hne : status ≠ 200 := by omega
    have hs : inSuccessRange status = false := by
      simp [inSuccessRange, hne]
    have hband2 : inClientErrorBand status = true := by
      simp [inClientErrorBand, hband.1, hband.2]
    simp [classify, hs, hband2, hb]
  · intro hcb
    simp [onFailureH, hcb]

/-- Witness for C4: `classify(200,"")`, `classify(500,"oops")` and
`classify(403,"")` are all `Network`, and a transport failure on an
in-flight state reports `Network`. -/
theorem classify_network_fallback_witness :
    classify "m" 200 "" = .failure .Network ∧
    classify "m" 500 "oops" = .failure .Network ∧
    classify "m" 403 "" = .failure .Network ∧
    onFailureH inFlightExample =
      .delivered [.failure .Network] (reset { inFlightExample with complete := true }) := by
  refine ⟨?_, ?_, ?_, ?_⟩
  · exact (classify_network_fallback "m" 200 "" inFlightExample).1 (by decide) (by decide)
  · exact (classify_network_fallback "m" 500 "oops" inFlightExample).2.1 (by decide) (by decide)
  · exact (classify_network_fallback "m" 403 "" inFlightExample).2.2.1 (by decide) (by decide)
  · exact (classify_network_fallback "m" 403 "" inFlightExample).2.2.2 (by decide)

/-- On a resolvable cluster, chained credentials with any absent field
abort the fetch at the `.value()` dereference (a thrown
`bad_optional_access`): no signing, no send, no callback. -/
theorem fetch_credsMissing_eq (debugBuild : Bool) (configured : List String)
    (now : Nat) (st : FetcherState) (uri : HttpUri) (role_arn web_token : String)
    (c : StsCredentials)
    (hdb : (debugBuild && st.callbacks.isSome) = false)
    (hm : uri.cluster ∈ configured)
    (hmiss : c.accessKeyId = none ∨ c.secretAccessKey = none ∨ c.sessionToken = none) :
    fetch debugBuild configured now st uri role_arn web_token (some c) =
      .credsFieldMissing := by
  unfold fetch
  rw [if_neg (by simp [hdb])]
  rw [if_neg (by simp [getThreadLocalCluster, hm])]
  obtain ⟨a, s, t⟩ := c
  cases a <;> cases s <;> cases t <;> simp_all

/-- C5 counterexample: cancel an in-flight request, then deliver a stale
transport completion anyway; both handlers dereference the cleared
(null) callback pointer — the completion is not discarded as a safe
no-op, and neither handler consults the completion flag. -/
theorem cancel_stale_completion_not_noop :
    (cancel inFlightExample).2 = true ∧
    onSuccessH "m" (cancel inFlightExample).1 200 "ok" = .nullCallbackDeref ∧
    onFailureH (cancel inFlightExample).1 = .nullCallbackDeref := by
  decide

/-- C5 amended: after `cancel()` the callback pointer is cleared, so no
caller callback can fire afterwards — but a transport completion
delivered after cancellation is not discarded as a safe no-op: the
handlers dereference the cleared (null) callback pointer
unconditionally (it is the transport-level cancel, not any
completion-flag check in the fetcher, that prevents late delivery).
`cancel()` with no active request issues no transport cancel and
merely re-clears state: a safe no-op. -/
theorem cancel_no_callback_after (st : FetcherState) (marker : String)
    (status : Nat) (body : String) :
    (cancel st).1.callbacks = none ∧
    onSuccessH marker (cancel st).1 status body = .nullCallbackDeref ∧
    onFailureH (cancel st).1 = .nullCallbackDeref ∧
    (st.request = none → cancel st = (reset st, false)) ∧
    cancel idleExample = (idleExample, false) := by
  have h1 : (cancel st).1 = reset st := by
    unfold cancel
    split <;> rfl
  refine ⟨?_, ?_, ?_, ?_, by decide⟩
  · rw [h1]; rfl
  · rw [h1]; rfl
  · rw [h1]; rfl
  · intro hr
    unfold cancel
    rw [if_neg (by simp [hr])]

/-- Witness for C5 amended: `cancel()` on an idle state is a no-op that
issues no transport cancel. -/
theorem cancel_no_callback_after_witness :
    cancel idleExample = (reset idleExample, false) :=
  (cancel_no_callback_after idleExample "m" 200 "ok").2.2.2.1 rfl

/-- C6: a fetch on an endpoint whose cluster is not configured invokes
`onFailure(ClusterNotFound)` synchronously exactly once (the event
list is exactly that one event), hands nothing to the transport and
constructs no outbound message (the send list is empty), performs no
sign call, and clears the in-flight state (request handle, callback
pointer and uri are null at return). -/
theorem fetch_cluster_unresolvable (debugBuild : Bool) (configured : List String)
    (now : Nat) (st : FetcherState) (uri : HttpUri) (role_arn web_token : String)
    (creds : Option StsCredentials)
    (hdb : (debugBuild && st.callbacks.isSome) = false)
    (hm : uri.cluster ∉ configured) :
    fetch debugBuild configured now st uri role_arn web_token creds =
      .done [.failure .ClusterNotFound] [] (fastFailState role_arn) [] ∧
    (fastFailState role_arn).request = none ∧
    (fastFailState role_arn).callbacks = none ∧
    (fastFailState role_arn).uri = none :=
  ⟨fetch_eq_of_cluster_missing debugBuild configured now st uri role_arn web_token
      creds hdb hm, rfl, rfl, rfl⟩

/-- Witness for C6: a concrete fetch against an empty cluster set
fast-fails with the single `ClusterNotFound` callback and no send. -/
theorem fetch_cluster_unresolvable_witness :
    fetch false [] 7 initState uriExample "arn" "tok" none =
      .done [.failure .ClusterNotFound] [] (fastFailState "arn") [] :=
  (fetch_cluster_unresolvable false [] 7 initState uriExample "arn" "tok" none
    (by decide) (by simp)).1

/-- C7 counterexample: in a release build (`ASSERT` compiled out) a fetch
issued while another request is in flight is not rejected: it proceeds
exactly as a fresh fetch, performing a transport send and invoking no
failure path, silently overwriting the in-flight state. -/
theorem fetch_inflight_release_proceeds :
    inFlightExample.callbacks.isSome = true ∧
    fetch false ["stscluster"] 7 inFlightExample uriExample "arn" "tok" none =
      .done [] [webMessage uriExample "arn" 7 "tok"] (inFlightState uriExample "arn") [] ∧
    (sentMessages (fetch false ["stscluster"] 7 inFlightExample uriExample "arn"
      "tok" none)).length = 1 ∧
    eventsOf (fetch false ["stscluster"] 7 inFlightExample uriExample "arn"
      "tok" none) = [] := by
  decide

/-- C7 amended: a fetch called while another request is in flight fires
the `ASSERT(callbacks_ == nullptr)` in debug builds; in release builds
the assert compiles out and the fetch is not rejected — it proceeds
exactly as a fresh fetch would, silently overwriting the in-flight
state (neither rejected nor queued). -/
theorem fetch_inflight_assert_debug_only (configured : List String) (now : Nat)
    (st : FetcherState) (uri : HttpUri) (role_arn web_token : String)
    (creds : Option StsCredentials) (hin : st.callbacks.isSome = true) :
    fetch true configured now st uri role_arn web_token creds = .asserted ∧
    fetch false configured now st uri role_arn web_token creds =
      fetch false configured now initState uri role_arn web_token creds := by
  constructor
  · unfold fetch
    rw [if_pos (by simp [hin])]
  · by_cases hm : uri.cluster ∈ configured
    · cases creds with
      | none =>
        rw [fetch_eq_web false configured now st uri role_arn web_token (by simp) hm,
            fetch_eq_web false configured now initState uri role_arn web_token
              (by simp) hm]
      | some c =>
        obtain ⟨a, s, t⟩ := c
        cases a with
        | none =>
          rw [fetch_credsMissing_eq false configured now st uri role_arn web_token
                ⟨none, s, t⟩ (by simp) hm (Or.inl rfl),
              fetch_credsMissing_eq false configured now initState uri role_arn
                web_token ⟨none, s, t⟩ (by simp) hm (Or.inl rfl)]
        | some ak =>
          cases s with
          | none =>
            rw [fetch_credsMissing_eq false configured now st uri role_arn web_token
                  ⟨some ak, none, t⟩ (by simp) hm (Or.inr (Or.inl rfl)),
                fetch_credsMissing_eq false configured now initState uri role_arn
                  web_token ⟨some ak, none, t⟩ (by simp) hm (Or.inr (Or.inl rfl))]
          | some sk =>
            cases t with
            | none =>
              rw [fetch_credsMissing_eq false configured now st uri role_arn web_token
                    ⟨some ak, some sk, none⟩ (by simp) hm (Or.inr (Or.inr rfl)),
                  fetch_credsMissing_eq false configured now initState uri role_arn
                    web_token ⟨some ak, some sk, none⟩ (by simp) hm
                    (Or.inr (Or.inr rfl))]
            | some tok =>
              rw [fetch_eq_chained false configured now st uri role_arn web_token
                    ak sk tok (by simp) hm,
                  fetch_eq_chained false configured now initState uri role_arn
                    web_token ak sk tok (by simp) hm]
    · rw [fetch_eq_of_cluster_missing false configured now st uri role_arn web_token
            creds (by simp) hm,
          fetch_eq_of_cluster_missing false configured now initState uri role_arn
            web_token creds (by simp) hm]

/-- Witness for C7 amended: with a request in flight, a debug-build fetch
asserts and a release-build fetch behaves as a fresh fetch. -/
theorem fetch_inflight_assert_debug_only_witness :
    fetch true ["stscluster"] 7 inFlightExample uriExample "arn" "tok" none
      = .asserted ∧
    fetch false ["stscluster"] 7 inFlightExample uriExample "arn" "tok" none =
      fetch false ["stscluster"] 7 initState uriExample "arn" "tok" none :=
  fetch_inflight_assert_debug_only ["stscluster"] 7 inFlightExample uriExample
    "arn" "tok" none (by decide)

/-- The authorization header value the signer produces is never empty. -/
theorem authorizationValue_ne_empty (a : AwsAuthenticator) (hts : List String)
    (region : String) (now : Nat) :
    authorizationValue a hts region now ≠ "" := by
  unfold authorizationValue
  intro h
  have h2 := congrArg String.length h
  rw [show ("" : String).length = 0 from rfl] at h2
  simp only [String.length_append] at h2
  have h3 : 0 < ("AWS4-HMAC-SHA256 Credential=" : String).length := by decide
  omega

/-- C8: the web-identity form's outbound request carries no signing
headers at all (no authorization header, no request-date header);
the chained form's outbound request always carries a non-empty
authorization header produced by the signer over the canonical
headers (content-type, request-date, host) and the body. -/
theorem fetch_signing_headers (debugBuild : Bool) (configured : List String)
    (now : Nat) (uri : HttpUri) (role_arn web_token : String) (ak sk tok : String)
    (hm : uri.cluster ∈ configured) :
    (∀ msg ∈ sentMessages (fetch debugBuild configured now initState uri role_arn
        web_token none),
      hasHeader msg "authorization" = false ∧ hasHeader msg DateHeader = false) ∧
    (∀ msg ∈ sentMessages (fetch debugBuild configured now initState uri role_arn
        web_token (some { accessKeyId := some ak, secretAccessKey := some sk,
                          sessionToken := some tok })),
      ∃ v, headerValue msg "authorization" = some v ∧ v ≠ "") := by
  have hdb : (debugBuild && initState.callbacks.isSome) = false := by simp [initState]
  constructor
  · rw [fetch_eq_web debugBuild configured now initState uri role_arn web_token hdb hm]
    intro msg hmsg
    simp only [sentMessages, List.mem_singleton] at hmsg
    subst hmsg
    exact ⟨rfl, rfl⟩
  · rw [fetch_eq_chained debugBuild configured now initState uri role_arn web_token
          ak sk tok hdb hm]
    intro msg hmsg
    simp only [sentMessages, List.mem_singleton] at hmsg
    subst hmsg
    exact ⟨_, rfl, authorizationValue_ne_empty _ _ _ _⟩

/-- Witness for C8: a concrete web-identity fetch sends an unsigned
message and a concrete chained fetch sends a message with a non-empty
authorization header. -/
theorem fetch_signing_headers_witness :
    (∀ msg ∈ sentMessages (fetch false ["stscluster"] 7 initState uriExample
        "arn" "tok" none),
      hasHeader msg "authorization" = false ∧ hasHeader msg DateHeader = false) ∧
    (∀ msg ∈ sentMessages (fetch false ["stscluster"] 7 initState uriExample
        "arn" "tok" (some { accessKeyId := some "AK", secretAccessKey := some "SK",
                            sessionToken := some "ST" })),
      ∃ v, headerValue msg "authorization" = some v ∧ v ≠ "") :=
  fetch_signing_headers false ["stscluster"] 7 uriExample "arn" "tok"
    "AK" "SK" "ST" (by decide)

/-- C9: every signer invocation `fetch` performs passes the hardcoded
`DefaultRegion` ("us-east-1") as the region: the fetch interface
exposes no region parameter, so no fetch can sign with any other
region (the TODO at sts_fetcher.cc:100 records the missing
override). -/
theorem fetch_sign_region_hardcoded (debugBuild : Bool) (configured : List String)
    (now : Nat) (st : FetcherState) (uri : HttpUri) (role_arn web_token : String)
    (creds : Option StsCredentials) (r : String)
    (hr : r ∈ signRegionsOf
      (fetch debugBuild configured now st uri role_arn web_token creds)) :
    r = "us-east-1" := by
  by_cases hdb : (debugBuild && st.callbacks.isSome) = true
  · unfold fetch at hr
    rw [if_pos hdb] at hr
    simp [signRegionsOf] at hr
  · have hdb' : (debugBuild && st.callbacks.isSome) = false := by
      simpa using hdb
    by_cases hm : uri.cluster ∈ configured
    · cases creds with
      | none =>
        rw [fetch_eq_web debugBuild configured now st uri role_arn web_token
              hdb' hm] at hr
        simp [signRegionsOf] at hr
      | some c =>
        obtain ⟨a, s, t⟩ := c
        cases a with
        | none =>
          rw [fetch_credsMissing_eq debugBuild configured now st uri role_arn
                web_token ⟨none, s, t⟩ hdb' hm (Or.inl rfl)] at hr
          simp [signRegionsOf] at hr
        | some ak =>
          cases s with
          | none =>
            rw [fetch_credsMissing_eq debugBuild configured now st uri role_arn
                  web_token ⟨some ak, none, t⟩ hdb' hm (Or.inr (Or.inl rfl))] at hr
            simp [signRegionsOf] at hr
          | some sk =>
            cases t with
            | none =>
              rw [fetch_credsMissing_eq debugBuild configured now st uri role_arn
                    web_token ⟨some ak, some sk, none⟩ hdb' hm
                    (Or.inr (Or.inr rfl))] at hr
              simp [signRegionsOf] at hr
            | some tok =>
              rw [fetch_eq_chained debugBuild configured now st uri role_arn
                    web_token ak sk tok hdb' hm] at hr
              simpa [signRegionsOf, DefaultRegion] using hr
    · rw [fetch_eq_of_cluster_missing debugBuild configured now st uri role_arn
            web_token creds hdb' hm] at hr
      simp [signRegionsOf] at hr

/-- Witness for C9: a concrete chained fetch performs exactly one sign
call and its region is `"us-east-1"`. -/
theorem fetch_sign_region_hardcoded_witness :
    signRegionsOf (fetch false ["stscluster"] 7 initState uriExample "arn" ""
      (some credsExample)) = ["us-east-1"] ∧ "us-east-1" = "us-east-1" :=
  ⟨by decide,
   fetch_sign_region_hardcoded false ["stscluster"] 7 initState uriExample
     "arn" "" (some credsExample) "us-east-1" (by decide)⟩

/-- C10: the chained path dereferences (`.value()`) all three credential
fields before signing; a credentials object with any field absent
aborts the fetch at that dereference (the thrown
`bad_optional_access`): no signing, no send, no caller callback —
such an object violates the chained path's unstated precondition. -/
theorem fetch_chained_missing_field (debugBuild : Bool) (configured : List String)
    (now : Nat) (uri : HttpUri) (role_arn web_token : String) (c : StsCredentials)
    (hm : uri.cluster ∈ configured)
    (hmiss : c.accessKeyId = none ∨ c.secretAccessKey = none ∨
             c.sessionToken = none) :
    fetch debugBuild configured now initState uri role_arn web_token (some c) =
      .credsFieldMissing :=
  fetch_credsMissing_eq debugBuild configured now initState uri role_arn web_token
    c (by simp [initState]) hm hmiss

/-- Witness for C10: a credentials object missing its secret key aborts
a concrete chained fetch at the dereference. -/
theorem fetch_chained_missing_field_witness :
    fetch false ["stscluster"] 7 initState uriExample "arn" ""
      (some { accessKeyId := some "AK", secretAccessKey := none,
              sessionToken := some "ST" }) = .credsFieldMissing :=
  fetch_chained_missing_field false ["stscluster"] 7 uriExample "arn" ""
    { accessKeyId := some "AK", secretAccessKey := none, sessionToken := some "ST" }
    (by decide) (Or.inr (Or.inl rfl))

end StsFetcher
